import Mathlib

set_option maxRecDepth 100000

/-!
Verification of the aggregation header `src/bin/AbcView/All.h` of the
blurstudio/abcview repository.

The file is embedded verbatim as its list of source lines.  A small,
structurally recursive model of the C preprocessor (line classification,
conditional-inclusion stack, macro table, emitted `#include` targets) is
defined over those lines, and the specification's claims about the header
are settled as decidable properties of that model.
-/

namespace AbcView

/-- The 59 lines of `src/bin/AbcView/All.h`, verbatim and in order.
The file begins with a blank line and its final line `#endif` carries no
trailing newline. -/
def allHLines : List String :=
  [ "",
    "#ifndef _AbcView_All_h_",
    "#define _AbcView_All_h_",
    "",
    "#define ABCVIEW_VERSION_NS v1",
    "",
    "#include <iostream>",
    "#include <algorithm>",
    "#include <math.h>",
    "",
    "#include <ImathMath.h>",
    "#include <ImathVec.h>",
    "#include <ImathMatrix.h>",
    "#include <ImathBox.h>",
    "#include <ImathQuat.h>",
    "#include <ImathColor.h>",
    "#include <ImathFun.h>",
    "#include <ImathBoxAlgo.h>",
    "",
    "#ifdef PLATFORM_DARWIN",
    "",
    "#include <OpenGL/gl.h>",
    "#include <OpenGL/glu.h>",
    "#include <OpenGL/glext.h>",
    "#include <OpenGL/OpenGL.h>",
    "#include <GLUT/glut.h>",
    "",
    "#else",
    "// http://stackoverflow.com/questions/8580675/error-gl-h-included-before-glew-h",
    "#include <GL/glew.h>",
    "",
    "#endif // ifdef PLATFORM_DARWIN",
    "",
    "#include <QtWidgets/QAction>",
    "#include <QtWidgets/QAbstractItemView>",
    "#include <QtWidgets/QDockWidget>",
    "#include <QtWidgets/QFileDialog>",
    "#include <QtWidgets/QLabel>",
    "#include <QtWidgets/QMenu>",
    "#include <QtWidgets/QMenuBar>",
    "#include <QtWidgets/QMainWindow>",
    "#include <QtWidgets/QStyleFactory>",
    "#include <QtWidgets/QToolBar>",
    "#include <QtWidgets/QTreeWidget>",
    "#include <QtWidgets/QTreeWidgetItem>",
    "#include <QtWidgets/QWidget>",
    "#include <QIODevice>",
    "#include <QFile>",
    "#include <QResizeEvent>",
    "#include <QWheelEvent>",
    "#include <QKeyEvent>",
    "#include <QMouseEvent>",
    "#include <QPoint>",
    "#include <QtOpenGL/QGLWidget>",
    "#include <QtOpenGL/QGLFormat>",
    "#include <AbcOpenGL/GLCamera.h>",
    "#include <AbcOpenGL/SceneWrapper.h>",
    "",
    "#endif" ]

/-- Boolean prefix test on character lists (structurally recursive, so the
kernel can evaluate it). -/
def isPrefixList : List Char → List Char → Bool
  | [], _ => true
  | _ :: _, [] => false
  | a :: as, b :: bs => a = b && isPrefixList as bs

/-- Boolean substring test on character lists. -/
def containsSub (pat : List Char) : List Char → Bool
  | [] => isPrefixList pat []
  | c :: cs => isPrefixList pat (c :: cs) || containsSub pat cs

/-- Drop leading and trailing blanks of a character list. -/
def trimChars (l : List Char) : List Char :=
  ((l.dropWhile (fun c => c = ' ')).reverse.dropWhile (fun c => c = ' ')).reverse

/-- Split a character list into its blank-separated words. -/
def wordsAux : List Char → List Char → List (List Char)
  | [], acc => if acc = [] then [] else [acc.reverse]
  | c :: cs, acc =>
    if c = ' ' then
      (if acc = [] then wordsAux cs [] else acc.reverse :: wordsAux cs [])
    else wordsAux cs (c :: acc)

def wordsOf (l : List Char) : List (List Char) := wordsAux l []

/-- Extract the target of an `#include <...>` line: the characters between
the first angle brackets. -/
def includeTarget (l : List Char) : List Char :=
  (((l.dropWhile (fun c => c ≠ '<')).drop 1).takeWhile (fun c => c ≠ '>'))

/-- Classification of one source line of the header: the preprocessor
directives that occur in it, plus comment and blank lines.  Any line that
is none of these (i.e. C++ code proper) is `otherL`. -/
inductive PLine where
  | includeD (path : String)
  | ifndefD (m : String)
  | defineD (nm : String) (val : String)
  | ifdefD (m : String)
  | elseD
  | endifD
  | commentL
  | blankL
  | otherL
deriving DecidableEq, Repr

/-- Parse one source line.  Mirrors how the C preprocessor reads the file:
a leading `#` introduces a directive, `//` a comment, and everything else
would be ordinary program text. -/
def parseLine (s : String) : PLine :=
  let t := trimChars s.data
  if t = [] then .blankL
  else if isPrefixList ['/', '/'] t then .commentL
  else if isPrefixList "#include".data t then .includeD ⟨includeTarget t⟩
  else if isPrefixList "#ifndef".data t then .ifndefD ⟨(wordsOf t).getD 1 []⟩
  else if isPrefixList "#ifdef".data t then .ifdefD ⟨(wordsOf t).getD 1 []⟩
  else if isPrefixList "#define".data t then
    .defineD ⟨(wordsOf t).getD 1 []⟩ ⟨(wordsOf t).getD 2 []⟩
  else if isPrefixList "#endif".data t then .endifD
  else if isPrefixList "#else".data t then .elseD
  else .otherL

/-- The parsed lines of `All.h`. -/
def allHParsed : List PLine := allHLines.map parseLine

/-- State of a translation unit as far as this header can affect it: the
macro table (name, replacement) and the sequence of `#include` targets
emitted so far. -/
structure PPState where
  defs : List (String × String)
  emitted : List String
deriving DecidableEq, Repr

/-- Names of the macros currently defined. -/
def defNames (s : PPState) : List String := s.defs.map Prod.fst

/-- One step of conditional-inclusion processing.  The `List Bool` is the
stack of surrounding `#if...` conditions; a line has effect only when every
entry is true. -/
def ppStep : PPState × List Bool → PLine → PPState × List Bool
  | (s, stk), l =>
    let active := stk.all (fun b => b)
    match l with
    | .ifdefD m => (s, ((defNames s).contains m) :: stk)
    | .ifndefD m => (s, (!(defNames s).contains m) :: stk)
    | .elseD => (s, match stk with | [] => [] | b :: r => (!b) :: r)
    | .endifD => (s, stk.tail)
    | .defineD nm v =>
      if active then ({ s with defs := s.defs ++ [(nm, v)] }, stk) else (s, stk)
    | .includeD p =>
      if active then ({ s with emitted := s.emitted ++ [p] }, stk) else (s, stk)
    | _ => (s, stk)

/-- Process the whole of `All.h` once against a translation-unit state. -/
def processAllH (s : PPState) : PPState :=
  (allHParsed.foldl ppStep (s, [])).1

/-- The state of a fresh translation unit: `PLATFORM_DARWIN` is defined by
the build system on Darwin and is absent elsewhere; nothing has been
included yet. -/
def initState (darwin : Bool) : PPState :=
  ⟨if darwin then [("PLATFORM_DARWIN", "")] else [], []⟩

/-- The `#include` targets a fresh inclusion of `All.h` emits, in order,
for the given platform. -/
def includedPaths (darwin : Bool) : List String :=
  (processAllH (initState darwin)).emitted

/-- Does a parsed line constitute a preprocessor directive (as opposed to a
comment, a blank line, or an ordinary code line)? -/
def isDirective : PLine → Bool
  | .includeD _ => true
  | .ifndefD _ => true
  | .defineD _ _ => true
  | .ifdefD _ => true
  | .elseD => true
  | .endifD => true
  | _ => false

/-- Is a parsed line an `#include` directive? -/
def isIncludeLine : PLine → Bool
  | .includeD _ => true
  | _ => false

/-- The directive kinds the spec's description of the file allows: an
`#include`, an include-guard directive for `_AbcView_All_h_`, or a
directive of the `PLATFORM_DARWIN` platform conditional (`#else` and
`#endif` belong to the guard or to that conditional). -/
def guardOrCondOrInclude : PLine → Bool
  | .includeD _ => true
  | .ifndefD m => m = "_AbcView_All_h_"
  | .defineD nm _ => nm = "_AbcView_All_h_"
  | .ifdefD m => m = "PLATFORM_DARWIN"
  | .elseD => true
  | .endifD => true
  | _ => false

/-- A raw source line holds preprocessor text only: it is blank, a `//`
comment, or a `#` directive line. -/
def lineIsPPOnly (s : String) : Bool :=
  let t := trimChars s.data
  t = [] || isPrefixList ['/', '/'] t || isPrefixList ['#'] t

/-- Is an include target a Qt header?  Every Qt header name starts with `Q`
and no other dependency of this file does. -/
def isQtPath (p : String) : Bool := isPrefixList ['Q'] p.data

/-- Is an include target an Imath (math-library) header? -/
def isImathPath (p : String) : Bool := isPrefixList "Imath".data p.data

/-- Is an include target one of the native Darwin OpenGL/GLU/GLUT headers? -/
def isNativeGLPath (p : String) : Bool :=
  isPrefixList "OpenGL/".data p.data || isPrefixList "GLUT/".data p.data

/-- Is an include target a header of the generic `GL/` directory (GLEW
lives there, as would plain `GL/gl.h`)? -/
def isGLDirPath (p : String) : Bool := isPrefixList "GL/".data p.data

/-- Is an include target an AbcOpenGL collaborator header? -/
def isAbcOpenGLPath (p : String) : Bool := isPrefixList "AbcOpenGL/".data p.data

/-- Is an include target one of the C/C++ standard-library headers the file
names? -/
def isStdPath (p : String) : Bool :=
  p = "iostream" || p = "algorithm" || p = "math.h"

/-- Does an include target mention OpenGL anywhere in its name? -/
def namesGL (p : String) : Bool := containsSub "GL".data p.data

/-- The final path component of an include target (the class name of a Qt
include such as `QtWidgets/QAction`). -/
def baseNameOf (p : String) : String :=
  ⟨p.data.foldl (fun acc c => if c = '/' then [] else acc ++ [c]) []⟩

/-- Index of the first occurrence of a path in a list of include targets. -/
def idxIn (l : List String) (p : String) : Nat := l.findIdx (fun q => q = p)

/-- The five native OpenGL/GLU/GLUT headers of the Darwin branch, in file
order. -/
def darwinGLPaths : List String :=
  ["OpenGL/gl.h", "OpenGL/glu.h", "OpenGL/glext.h", "OpenGL/OpenGL.h",
   "GLUT/glut.h"]

/-- Spec-side definition (from the spec's enumeration, for comparison with
the source): the GUI-toolkit classes the spec lists, in the order of the
spec's table: action, abstract item view, dock widget, file dialog, label,
menu, menu bar, main window, style factory, toolbar, tree widget, tree
widget item, generic widget, I/O device, file, resize event, wheel event,
key event, mouse event, point, GL-capable widget, GL format. -/
def specQtClasses : List String :=
  ["QAction", "QAbstractItemView", "QDockWidget", "QFileDialog", "QLabel",
   "QMenu", "QMenuBar", "QMainWindow", "QStyleFactory", "QToolBar",
   "QTreeWidget", "QTreeWidgetItem", "QWidget", "QIODevice", "QFile",
   "QResizeEvent", "QWheelEvent", "QKeyEvent", "QMouseEvent", "QPoint",
   "QGLWidget", "QGLFormat"]

/-- Spec-side definition (from the spec's enumeration, for comparison with
the source): one Imath header per math-primitive category the spec lists —
vector, matrix, box, quaternion, color, the interpolation helper, and the
box-algebra helper. -/
def specImathCategoryHeaders : List String :=
  ["ImathVec.h", "ImathMatrix.h", "ImathBox.h", "ImathQuat.h",
   "ImathColor.h", "ImathFun.h", "ImathBoxAlgo.h"]

/-- Processing the header twice from a fresh state is the same as
processing it once: the include guard short-circuits the second pass. -/
theorem processAllH_idem (darwin : Bool) :
    processAllH (processAllH (initState darwin)) = processAllH (initState darwin) := by
  cases darwin <;> decide

/-- C1 (counterexample): the claim says the non-Darwin branch includes GLEW
"plus generic OpenGL headers", but in the non-Darwin compilation the only
header the file includes from the generic `GL/` directory is `GL/glew.h`
itself: neither `GL/gl.h` nor `GL/glu.h` is included. -/
theorem C1_counterexample :
    (includedPaths false).filter isGLDirPath = ["GL/glew.h"]
    ∧ "GL/gl.h" ∉ includedPaths false
    ∧ "GL/glu.h" ∉ includedPaths false := by decide

/-- C1 (amended): build-time platform selection: when PLATFORM_DARWIN is
defined the file includes exactly the five native OpenGL/GLU/GLUT headers
and no GLEW header, and in every other case it includes only the GLEW
header and none of the native ones, so exactly one of the two branches is
included in any compilation. -/
theorem C1_platform_selection (darwin : Bool) :
    (includedPaths darwin).filter (fun p => isNativeGLPath p || isGLDirPath p)
      = (if darwin then darwinGLPaths else ["GL/glew.h"]) := by cases darwin <;> decide

/-- C2 (counterexample): the file is 59 lines long, not 60, and line 5 is
the directive `#define ABCVIEW_VERSION_NS v1`, which is neither an
`#include`, an include-guard directive, nor a platform-conditional
directive. -/
theorem C2_counterexample :
    allHLines.length = 59
    ∧ ¬ allHLines.length = 60
    ∧ allHParsed.getD 4 PLine.otherL = PLine.defineD "ABCVIEW_VERSION_NS" "v1"
    ∧ ¬ allHParsed.all
        (fun l => !(isDirective l) || guardOrCondOrInclude l) = true := by decide

/-- C2 (amended): the file is 59 lines long and is pure preprocessor text
with zero logic: every directive in it is an `#include`, an include-guard
directive, a platform-conditional directive, or the single version-macro
definition `ABCVIEW_VERSION_NS v1`, and every line is a directive, a
comment, or blank. -/
theorem C2_pure_include_manifest :
    allHLines.length = 59
    ∧ allHParsed.all
        (fun l => !(isDirective l) || guardOrCondOrInclude l
          || l == PLine.defineD "ABCVIEW_VERSION_NS" "v1") = true
    ∧ allHParsed.all (fun l => !(l == PLine.otherL)) = true := by decide

/-- C3: on either platform the file includes exactly two AbcOpenGL
collaborator headers — the camera controller `GLCamera.h` and the scene
wrapper `SceneWrapper.h` — and every other included header belongs to the
standard library, Imath, the OpenGL family, or Qt, so there is no other
collaborator header. -/
theorem C3_collaborator_headers (darwin : Bool) :
    (includedPaths darwin).filter isAbcOpenGLPath
      = ["AbcOpenGL/GLCamera.h", "AbcOpenGL/SceneWrapper.h"]
    ∧ (includedPaths darwin).all
        (fun p => isStdPath p || isImathPath p || isNativeGLPath p
          || isGLDirPath p || isQtPath p || isAbcOpenGLPath p) = true := by cases darwin <;> decide

/-- C4: the header declares nothing of its own: every one of its lines is
blank, a `//` comment, or a `#` preprocessor line, and every parsed line is
a recognised directive, comment, or blank — so any structure, class, data
type, or operation a consumer can use is declared in an included dependency
header, not in this file. -/
theorem C4_no_own_declarations :
    allHLines.all lineIsPPOnly = true
    ∧ allHParsed.all (fun l => !(l == PLine.otherL)) = true := by decide

/-- C5: on either platform the Qt headers the file includes correspond
exactly, one for one and in order, to the GUI-toolkit classes the spec
enumerates, with no unlisted Qt include. -/
theorem C5_qt_includes (darwin : Bool) :
    ((includedPaths darwin).filter isQtPath).map baseNameOf = specQtClasses := by
  cases darwin <;> decide

/-- C6 (counterexample): the file includes the math-library header
`ImathMath.h`, which corresponds to none of the categories the spec lists
(vector, matrix, box, quaternion, color, interpolation helper, box-algebra
helper), so the file does include a math-library header outside the listed
categories: it includes eight Imath headers, not seven. -/
theorem C6_counterexample :
    "ImathMath.h" ∈ includedPaths false
    ∧ "ImathMath.h" ∉ specImathCategoryHeaders
    ∧ ((includedPaths false).filter isImathPath).length = 8
    ∧ specImathCategoryHeaders.length = 7 := by decide

/-- C6 (amended): on either platform the math-library headers the file
includes are exactly one per listed category plus the general
math-functions header `ImathMath.h`, which precedes them. -/
theorem C6_imath_includes (darwin : Bool) :
    (includedPaths darwin).filter isImathPath
      = "ImathMath.h" :: specImathCategoryHeaders := by cases darwin <;> decide

/-- C8: besides the include guard, a fresh inclusion of the header adds
exactly one macro definition, `ABCVIEW_VERSION_NS` with replacement `v1`,
on either platform, and its `#define` directive stands before every
`#include` directive of the file. -/
theorem C8_version_macro (darwin : Bool) :
    (processAllH (initState darwin)).defs
      = (initState darwin).defs
        ++ [("_AbcView_All_h_", ""), ("ABCVIEW_VERSION_NS", "v1")]
    ∧ allHParsed.findIdx (fun l => l == PLine.defineD "ABCVIEW_VERSION_NS" "v1")
        < allHParsed.findIdx isIncludeLine := by cases darwin <;> decide

/-- C9: the include guard `_AbcView_All_h_` wraps the whole file, so
processing the header any number n ≥ 1 of times against a fresh
translation unit yields exactly the state — macro definitions and emitted
includes — of processing it once: inclusion is idempotent. -/
theorem C9_inclusion_idempotent (darwin : Bool) (n : Nat) (h : 1 ≤ n) :
    processAllH^[n] (initState darwin) = processAllH (initState darwin) := by
  induction n with
  | zero => exact absurd h (by decide)
  | succ k ih =>
    rcases Nat.eq_zero_or_pos k with hk | hk
    · subst hk
      simp
    · rw [Function.iterate_succ_apply', ih hk, processAllH_idem]

/-- C9 witness: including the header twice on a non-Darwin platform gives
the state of including it once. -/
theorem C9_witness :
    1 ≤ 2 ∧ processAllH^[2] (initState false) = processAllH (initState false) :=
  ⟨by decide, C9_inclusion_idempotent false 2 (by decide)⟩

/-- C10: in the non-Darwin compilation `GL/glew.h` is the first included
header whose name mentions GL; in particular it precedes the QtOpenGL
includes of `QGLWidget` and `QGLFormat`, plain `GL/gl.h` is never included,
and the Darwin-branch native OpenGL headers are excluded; in the Darwin
compilation GLEW is absent altogether — so the cited "gl.h included before
glew.h" build error is unreachable in any compilation of this header. -/
theorem C10_glew_precedes_gl_users :
    ((includedPaths false).filter namesGL).head? = some "GL/glew.h"
    ∧ idxIn (includedPaths false) "GL/glew.h"
        < idxIn (includedPaths false) "QtOpenGL/QGLWidget"
    ∧ idxIn (includedPaths false) "GL/glew.h"
        < idxIn (includedPaths false) "QtOpenGL/QGLFormat"
    ∧ "GL/gl.h" ∉ includedPaths false
    ∧ (includedPaths false).filter isNativeGLPath = []
    ∧ "GL/glew.h" ∉ includedPaths true := by decide

end AbcView
